import Mathlib

/-!
Verification of the torizon update supervisor against its specification.

The development shallowly embeds the Python sources:
  * `src/ui/main_window.py` — the progress / phase state machine (`UI`,
    `advance_to_target`, `set_progress_floor`, the `on_*` handlers);
  * `src/services/dbus_worker.py` — the log-line extractor `process_line`
    and the reboot request path (`reboot_now`, `reboot_via_dbus`);
  * `src/domain/parsing.py` and `src/domain/models.py` — the consent payload
    parser `parse_consent_required` and `UpdateTarget`.

Modelling conventions: Python floats are embedded as `ℚ` (every arithmetic
operation the code performs on progress values is exact dyadic/rational
arithmetic on the ranges involved), Python ints as `ℤ`, `int(x)` as the
truncation `pyInt`, raised exceptions as `Except`/`.error`, Qt signal
emissions and modal dialogs as explicit effect lists (`Cmd`, `REvt`), and
timers as boolean fields that record whether the timer is running.  User
decisions taken inside a modal dialog are passed as boolean parameters to
the handler that opens the dialog.
-/

namespace Sup

/-- Python `int()` applied to a float/rational: truncation toward zero. -/
def pyInt (q : ℚ) : ℤ := q.num.tdiv q.den

theorem pyInt_eq_floor (q : ℚ) (h : 0 ≤ q) : pyInt q = ⌊q⌋ := by
  rw [pyInt, Rat.floor_def, Int.tdiv_eq_ediv (Rat.num_nonneg.mpr h) (Int.ofNat_nonneg q.den)]

/-- The six UI phases of `main_window.py`
(`idle | preparing | downloading | downloaded | installing | need_reboot`). -/
inductive Phase where
  | idle
  | preparing
  | downloading
  | downloaded
  | installing
  | need_reboot
deriving DecidableEq, Repr

/-- The mutable state of `MainWindow` that the supervisor logic reads and
writes: phase, progress bookkeeping, guard flags, the two timers, and the
user-visible widgets (progress bar, labels, enabled/disabled state). -/
structure UI where
  phase : Phase
  phase_progress : ℚ
  starting_pct : Option ℤ
  last_raw_pct : ℤ
  reboot_prompt_shown : Bool
  manual_check_active : Bool
  phase_timer_active : Bool
  check_timeout_active : Bool
  progress_bar_visible : Bool
  progress_bar_value : ℤ
  net_label : String
  net_label_visible : Bool
  info : String
  footer : String
  ui_locked : Bool
deriving DecidableEq, Repr

/-- The state set up in `MainWindow.__init__`. -/
def initState : UI :=
  { phase := .idle
    phase_progress := 0
    starting_pct := none
    last_raw_pct := -1
    reboot_prompt_shown := false
    manual_check_active := false
    phase_timer_active := false
    check_timeout_active := false
    progress_bar_visible := false
    progress_bar_value := 0
    net_label := ""
    net_label_visible := false
    info := "Connecting to Aktualizr..."
    footer := ""
    ui_locked := false }

/-- Commands sent to the worker and dialogs opened by the UI handlers
(the side effects of the Python slots, recorded as data). -/
inductive Cmd where
  | set_mode (v : ℤ)
  | check_for_updates
  | send_consent (granted : Bool) (reason : String)
  | cancel_update
  | reboot_now
  | show_consent_modal (msg : String)
  | show_reboot_modal
deriving DecidableEq, Repr

/-- `MainWindow._is_update_flow_active`. -/
def is_update_flow_active (s : UI) : Bool :=
  decide (s.phase = .preparing ∨ s.phase = .downloading ∨ s.phase = .downloaded ∨
    s.phase = .installing ∨ s.phase = .need_reboot)

/-- `MainWindow._lock_ui`. -/
def lock_ui (s : UI) (locked : Bool) : UI :=
  { s with ui_locked := locked }

/-- `MainWindow._advance_to_target`: smoothly increments the progress bar up
to a target value. -/
def advance_to_target (s : UI) (target : ℤ) (step : ℚ) : UI :=
  let target := max 0 (min 100 target)
  if (target : ℚ) > s.phase_progress then
    let new_val := s.phase_progress + step
    let new_val := if new_val > (target : ℚ) then (target : ℚ) else new_val
    { s with phase_progress := new_val, progress_bar_value := pyInt new_val }
  else s

/-- `MainWindow._set_progress_floor`: guarantees the progress bar never
moves backwards. -/
def set_progress_floor (s : UI) (value : ℤ) : UI :=
  let value := max 0 (min 100 value)
  if (value : ℚ) > s.phase_progress then
    { s with phase_progress := (value : ℚ), progress_bar_value := pyInt (value : ℚ) }
  else s

/-- `MainWindow._reset_progress_math`. -/
def reset_progress_math (s : UI) : UI :=
  { s with starting_pct := none, last_raw_pct := -1 }

/-- `MainWindow.reset_progress_state`: return the UI to the idle state. -/
def reset_progress_state (s : UI) : UI :=
  let s := { s with phase := .idle, phase_progress := 0, reboot_prompt_shown := false }
  let s := reset_progress_math s
  let s := { s with progress_bar_value := 0, progress_bar_visible := false,
                    net_label := "", net_label_visible := false,
                    phase_timer_active := false }
  lock_ui s false

/-- `MainWindow.start_update_flow`: starts the UI flow after the user
accepts an update. -/
def start_update_flow (s : UI) : UI :=
  let s := { s with phase := .preparing, phase_progress := 0, reboot_prompt_shown := false }
  let s := reset_progress_math s
  let s := { s with progress_bar_value := 0, progress_bar_visible := true,
                    net_label := "Measuring network activity...", net_label_visible := true,
                    info := "Preparing update (checking metadata)...",
                    footer := "Analyzing current system and update contents. This may take about a minute." }
  let s := lock_ui s true
  { s with phase_timer_active := true }

/-- `MainWindow.switch_to_downloading`. -/
def switch_to_downloading (s : UI) : UI :=
  if s.phase = .downloading then s
  else
    { s with phase_timer_active := false, phase := .downloading,
             info := "Downloading update...",
             footer := "Downloading the update. This may take several minutes." }

/-- `MainWindow.switch_to_installing`: installing is treated as almost done,
progress is forced to 95. -/
def switch_to_installing (s : UI) : UI :=
  if s.phase = .installing then s
  else
    let s := { s with phase_timer_active := false, phase := .installing }
    let s := set_progress_floor s 95
    { s with info := "Applying update...",
             footer := "Finalizing changes. A reboot is required to complete the update." }

/-- `MainWindow.on_phase_tick`: Stage A synthetic progress, only active in
`preparing`; half a percent per one-second tick, toward 50. -/
def on_phase_tick (s : UI) : UI :=
  if s.phase ≠ .preparing then s
  else if s.phase_progress < 50 then advance_to_target s 50 (1/2)
  else s

/-- `MainWindow.on_mode_toggled`: rejected while an update flow is active,
otherwise forwards `set_mode` to the worker. -/
def on_mode_toggled (s : UI) (checked : Bool) : UI × List Cmd :=
  if is_update_flow_active s = true ∧ s.phase ≠ .idle then
    ({ s with info := "An update is in progress. Mode cannot be changed now." }, [])
  else
    let value : ℤ := if checked then 1 else 0
    let mode_txt := if checked then "Require consent" else "Automatic"
    ({ s with info := "Mode: " ++ mode_txt }, [.set_mode value])

/-- `MainWindow.on_check_clicked`: rejected while an update flow is active,
otherwise marks the manual check active, asks the worker to check for
updates and starts the 15 s check timeout. -/
def on_check_clicked (s : UI) : UI × List Cmd :=
  if is_update_flow_active s = true ∧ s.phase ≠ .idle then
    ({ s with info := "An update is already in progress.",
              footer := "Please wait until the current update is finished." }, [])
  else
    let s := { s with manual_check_active := true,
                      info := "Checking for updates on the server...", footer := "" }
    ({ s with check_timeout_active := true }, [.check_for_updates])

/-- `MainWindow.on_check_timeout`: if still idle, report "no updates" and
reset; always clear the manual-check flag (the single-shot timer has fired,
so it is recorded as no longer active). -/
def on_check_timeout (s : UI) : UI :=
  let s := if s.phase = .idle then
      let s := { s with info := "No updates found.", footer := "Your system is up to date." }
      reset_progress_state s
    else s
  { s with manual_check_active := false, check_timeout_active := false }

/-- `MainWindow.on_consent_cleared`. -/
def on_consent_cleared (s : UI) : UI :=
  if s.phase = .preparing ∨ s.phase = .downloading then
    { s with info := "Consent sent. Waiting for download to complete...",
             footer := "Monitoring update progress..." }
  else s

/-- `MainWindow.on_download_progress_raw`: Stage B real download progress.
The raw value is clamped to [0,100]; values below the last accepted raw
value are discarded; values ≤ 50 only update `last_raw_pct`; the first
value above 50 switches to `downloading`, records `starting_pct` and floors
the bar at `min(raw, 94)`; later values are rescaled into `[start..94]`. -/
def on_download_progress_raw (s : UI) (raw0 : ℤ) : UI :=
  if s.phase = .idle then s
  else
    let raw := max 0 (min 100 raw0)
    if raw < s.last_raw_pct then s
    else
      let s := { s with last_raw_pct := raw }
      if raw ≤ 50 then s
      else
        let s := if s.phase = .downloading then s else switch_to_downloading s
        match s.starting_pct with
        | none =>
            let s := { s with starting_pct := some raw }
            let s := set_progress_floor s (min raw 94)
            { s with info := "Downloading update... " ++ toString raw ++ "%" }
        | some start =>
            let denom : ℤ := max 1 (100 - start)
            let scaled : ℚ :=
              (start : ℚ) + (((raw - start : ℤ) : ℚ) / (denom : ℚ)) * ((94 - start : ℤ) : ℚ)
            let scaled_i : ℤ := pyInt scaled
            let scaled_i := if scaled_i ≥ 95 then 94 else scaled_i
            let s := set_progress_floor s scaled_i
            { s with info := "Downloading update... " ++ toString raw ++ "%" }

/-! ## Consent payload parsing (`src/domain/parsing.py`, `src/domain/models.py`)

`parse_consent_required` calls `json.loads` and then walks the resulting
Python object with `.get`/`.items()`.  We embed JSON values as `JsonVal`
(Python dicts keep insertion order, with a duplicate key keeping its first
position and last value, as `objInsert` does), Python truthiness as
`jsonTruthy`, and raised exceptions (`json.JSONDecodeError` from a payload
that is not valid JSON, `AttributeError` from calling `.get`/`.items()` on
a non-dict) as `Except.error`.  `json_loads` models the strict JSON
grammar accepted by Python's `json.loads` (the non-standard `NaN` /
`Infinity` constants and surrogate-pair recombination of `\uXXXX` escapes
are not modelled; no payload in this development uses them). -/

/-- Exceptions relevant to the consent-payload path. -/
inductive PyErr where
  | jsonDecodeError
  | attributeError
deriving DecidableEq, Repr

/-- A parsed JSON value (the result of `json.loads`). -/
inductive JsonVal where
  | null
  | bool (b : Bool)
  | num (q : ℚ)
  | str (s : String)
  | arr (elems : List JsonVal)
  | obj (members : List (String × JsonVal))

/-- Python truthiness of a parsed JSON value. -/
def jsonTruthy : JsonVal → Bool
  | .null => false
  | .bool b => b
  | .num q => decide (q ≠ 0)
  | .str s => decide (s ≠ "")
  | .arr xs => !xs.isEmpty
  | .obj kvs => !kvs.isEmpty

/-- Python `str()` of a parsed JSON value.  Strings, integers, booleans and
`None` are rendered exactly as Python renders them; the remaining cases
(floats, lists, dicts) use placeholder renderings — no modelled payload and
no claim exercises them. -/
def pyStr : JsonVal → String
  | .null => "None"
  | .bool b => if b then "True" else "False"
  | .num q => if q.den = 1 then toString q.num else "<float>"
  | .str s => s
  | .arr _ => "<list>"
  | .obj _ => "<dict>"

/-- `d.get(k)` on an insertion-ordered dict: the value of the first (and
only) member with key `k`. -/
def objGet (kvs : List (String × JsonVal)) (k : String) : Option JsonVal :=
  (kvs.find? (fun kv => kv.1 == k)).map (fun kv => kv.2)

/-- `d[k] = v` on an insertion-ordered dict: an existing key keeps its
position and takes the new value, a new key is appended. -/
def objInsert (kvs : List (String × JsonVal)) (k : String) (v : JsonVal) :
    List (String × JsonVal) :=
  if kvs.any (fun kv => kv.1 == k) then
    kvs.map (fun kv => if kv.1 == k then (k, v) else kv)
  else kvs ++ [(k, v)]

/-- JSON whitespace accepted between tokens by `json.loads`. -/
def jsonWs (c : Char) : Bool := c = ' ' || c = '\t' || c = '\n' || c = '\r'

/-- Drop leading JSON whitespace. -/
def skipWs (cs : List Char) : List Char := cs.dropWhile jsonWs

/-- Match a literal character sequence at the head of the input, returning
the rest. -/
def dropLit : List Char → List Char → Option (List Char)
  | [], cs => some cs
  | _ :: _, [] => none
  | l :: ls, c :: cs => if c = l then dropLit ls cs else none

/-- Value of a hexadecimal digit. -/
def hexVal? (c : Char) : Option ℕ :=
  if c.isDigit then some (c.toNat - 48)
  else if 'a' ≤ c ∧ c ≤ 'f' then some (c.toNat - 87)
  else if 'A' ≤ c ∧ c ≤ 'F' then some (c.toNat - 55)
  else none

/-- Numeric value of a digit string. -/
def digitsToNat (ds : List Char) : ℕ := ds.foldl (fun a c => a * 10 + (c.toNat - 48)) 0

/-- Parse the body of a JSON string (after the opening quote), handling the
escape sequences `json.loads` accepts and rejecting raw control
characters. -/
def parseJStr : ℕ → List Char → List Char → Except PyErr (String × List Char)
  | 0, _, _ => .error .jsonDecodeError
  | _ + 1, [], _ => .error .jsonDecodeError
  | f + 1, c :: rest, acc =>
    if c = '"' then .ok (⟨acc.reverse⟩, rest)
    else if c = '\\' then
      match rest with
      | [] => .error .jsonDecodeError
      | e :: rest2 =>
        if e = '"' then parseJStr f rest2 ('"' :: acc)
        else if e = '\\' then parseJStr f rest2 ('\\' :: acc)
        else if e = '/' then parseJStr f rest2 ('/' :: acc)
        else if e = 'b' then parseJStr f rest2 ('\x08' :: acc)
        else if e = 'f' then parseJStr f rest2 ('\x0c' :: acc)
        else if e = 'n' then parseJStr f rest2 ('\n' :: acc)
        else if e = 'r' then parseJStr f rest2 ('\r' :: acc)
        else if e = 't' then parseJStr f rest2 ('\t' :: acc)
        else if e = 'u' then
          match rest2 with
          | h1 :: h2 :: h3 :: h4 :: rest3 =>
            match hexVal? h1, hexVal? h2, hexVal? h3, hexVal? h4 with
            | some a, some b, some c2, some d =>
              parseJStr f rest3 (Char.ofNat (((a * 16 + b) * 16 + c2) * 16 + d) :: acc)
            | _, _, _, _ => .error .jsonDecodeError
          | _ => .error .jsonDecodeError
        else .error .jsonDecodeError
    else if c.toNat < 32 then .error .jsonDecodeError
    else parseJStr f rest (c :: acc)

/-- Parse a JSON number (`-?int frac? exp?`, leading zeros rejected) into an
exact rational. -/
def parseJNum (cs : List Char) : Except PyErr (ℚ × List Char) :=
  let signed := match cs with
    | '-' :: t => (true, t)
    | _ => (false, cs)
  let neg := signed.1
  let cs1 := signed.2
  let ip := cs1.takeWhile Char.isDigit
  let rest := cs1.dropWhile Char.isDigit
  if ip.isEmpty then .error .jsonDecodeError
  else if ip.length > 1 ∧ ip.headD '0' = '0' then .error .jsonDecodeError
  else
    let base : ℚ := (digitsToNat ip : ℚ)
    let fracPart : Except PyErr (ℚ × List Char) :=
      match rest with
      | '.' :: r2 =>
        let fd := r2.takeWhile Char.isDigit
        let r3 := r2.dropWhile Char.isDigit
        if fd.isEmpty then .error .jsonDecodeError
        else .ok (base + (digitsToNat fd : ℚ) / ((10 : ℚ) ^ fd.length), r3)
      | _ => .ok (base, rest)
    match fracPart with
    | .error e => .error e
    | .ok (v, rest2) =>
      let expPart : Except PyErr (ℚ × List Char) :=
        match rest2 with
        | 'e' :: r3 | 'E' :: r3 =>
          let esigned := match r3 with
            | '+' :: t => (false, t)
            | '-' :: t => (true, t)
            | _ => (false, r3)
          let ed := esigned.2.takeWhile Char.isDigit
          let r4 := esigned.2.dropWhile Char.isDigit
          if ed.isEmpty then .error .jsonDecodeError
          else if esigned.1 then .ok (v / ((10 : ℚ) ^ digitsToNat ed), r4)
          else .ok (v * ((10 : ℚ) ^ digitsToNat ed), r4)
        | _ => .ok (v, rest2)
      match expPart with
      | .error e => .error e
      | .ok (v2, rest3) => .ok (if neg then -v2 else v2, rest3)

/-- Left brace character (used instead of a brace literal in patterns). -/
def lbrace : Char := Char.ofNat 123

/-- Right brace character. -/
def rbrace : Char := Char.ofNat 125

mutual

/-- Parse one JSON value (fuel-indexed recursive descent; the fuel passed by
`json_loads` is always sufficient, see the comment there). -/
def parseJVal : ℕ → List Char → Except PyErr (JsonVal × List Char)
  | 0, _ => .error .jsonDecodeError
  | f + 1, cs0 =>
    let cs := skipWs cs0
    match cs with
    | [] => .error .jsonDecodeError
    | c :: rest =>
      if c = '"' then
        match parseJStr f rest [] with
        | .error e => .error e
        | .ok (s, r) => .ok (.str s, r)
      else if c = lbrace then
        let r := skipWs rest
        match r with
        | c2 :: r2 =>
          if c2 = rbrace then .ok (.obj [], r2)
          else
            match parseJMembers f r [] with
            | .error e => .error e
            | .ok (kvs, r3) => .ok (.obj kvs, r3)
        | [] => .error .jsonDecodeError
      else if c = '[' then
        let r := skipWs rest
        match r with
        | ']' :: r2 => .ok (.arr [], r2)
        | _ =>
          match parseJElems f r [] with
          | .error e => .error e
          | .ok (xs, r2) => .ok (.arr xs, r2)
      else if c = 't' then
        match dropLit "rue".data rest with
        | some r => .ok (.bool true, r)
        | none => .error .jsonDecodeError
      else if c = 'f' then
        match dropLit "alse".data rest with
        | some r => .ok (.bool false, r)
        | none => .error .jsonDecodeError
      else if c = 'n' then
        match dropLit "ull".data rest with
        | some r => .ok (.null, r)
        | none => .error .jsonDecodeError
      else if c = '-' ∨ c.isDigit then
        match parseJNum cs with
        | .error e => .error e
        | .ok (q, r) => .ok (.num q, r)
      else .error .jsonDecodeError

/-- Parse the members of a JSON object after the opening brace (at least one
member present). -/
def parseJMembers : ℕ → List Char → List (String × JsonVal) →
    Except PyErr (List (String × JsonVal) × List Char)
  | 0, _, _ => .error .jsonDecodeError
  | f + 1, cs0, acc =>
    let cs := skipWs cs0
    match cs with
    | '"' :: rest =>
      (match parseJStr f rest [] with
      | .error e => .error e
      | .ok (k, r) =>
        match skipWs r with
        | ':' :: r2 =>
          (match parseJVal f r2 with
          | .error e => .error e
          | .ok (v, r3) =>
            let acc := objInsert acc k v
            match skipWs r3 with
            | c4 :: r5 =>
              if c4 = ',' then parseJMembers f r5 acc
              else if c4 = rbrace then .ok (acc, r5)
              else .error .jsonDecodeError
            | [] => .error .jsonDecodeError)
        | _ => .error .jsonDecodeError)
    | _ => .error .jsonDecodeError

/-- Parse the elements of a JSON array after the opening bracket (at least
one element present). -/
def parseJElems : ℕ → List Char → List JsonVal →
    Except PyErr (List JsonVal × List Char)
  | 0, _, _ => .error .jsonDecodeError
  | f + 1, cs, acc =>
    match parseJVal f cs with
    | .error e => .error e
    | .ok (v, r) =>
      match skipWs r with
      | ',' :: r2 => parseJElems f r2 (acc ++ [v])
      | ']' :: r2 => .ok (acc ++ [v], r2)
      | _ => .error .jsonDecodeError

end

/-- `json.loads`: parse one JSON document, allowing surrounding whitespace
and rejecting trailing data.  The fuel `2 * length + 4` is sufficient: along
any chain of recursive calls the fuel drops by one per call while at least
one input character is consumed every two calls. -/
def json_loads (raw : String) : Except PyErr JsonVal :=
  let cs := raw.data
  match parseJVal (2 * cs.length + 4) cs with
  | .error e => .error e
  | .ok (v, rest) => if (skipWs rest).isEmpty then .ok v else .error .jsonDecodeError

/-- `domain/models.py` `UpdateTarget`.  Field values that Python leaves
untyped (whatever the payload contained) are embedded as `JsonVal`;
`version` and `kind` are always strings in the code
(`str(...)` / a string literal). -/
structure UpdateTarget where
  target_id : String
  name : JsonVal
  version : String
  description : JsonVal
  length : JsonVal
  uri : JsonVal
  kind : String

/-- `parsing._shorten_target_id` with the default `max_len = 48`. -/
def shorten_target_id (tid : String) : String :=
  if tid.length ≤ 48 then tid else tid.take 45 ++ "..."

/-- The pure field computations of one loop iteration of
`parse_consent_required`, once `custom` has been resolved to a dict
(`customObj`). -/
def mk_target (target_id : String) (t customObj : List (String × JsonVal)) : UpdateTarget :=
  let name0 := objGet customObj "name"
  let name : JsonVal := match name0 with
    | some v => if jsonTruthy v then v else .str (shorten_target_id target_id)
    | none => .str (shorten_target_id target_id)
  let version := pyStr ((objGet customObj "version").getD (.str ""))
  let d1 := (objGet customObj "tdx-description").getD .null
  let d2 := (objGet customObj "description").getD .null
  let description := if jsonTruthy d1 then d1 else if jsonTruthy d2 then d2 else .str ""
  let length0 := (objGet t "length").getD (.num 0)
  let length := if jsonTruthy length0 then length0 else .num 0
  let uri := (objGet customObj "uri").getD (.str "")
  let kind :=
    if jsonTruthy ((objGet customObj "canonical_compose_file").getD .null) then "application"
    else "os"
  ⟨target_id, name, version, description, length, uri, kind⟩

/-- One loop iteration of `parse_consent_required`: resolve
`custom = t.get("custom", \x7b\x7d) or \x7b\x7d` (raising `AttributeError` when the
resolved `custom` is a truthy non-dict) and build the `UpdateTarget`. -/
def build_target (target_id : String) (t : List (String × JsonVal)) :
    Except PyErr UpdateTarget :=
  let custom0 := (objGet t "custom").getD (.obj [])
  if jsonTruthy custom0 then
    match custom0 with
    | .obj customObj => .ok (mk_target target_id t customObj)
    | _ => .error .attributeError
  else .ok (mk_target target_id t [])

/-- The `for target_id, t in targets.items()` loop of
`parse_consent_required`: each entry must be a dict (`t.get` raises
`AttributeError` otherwise), results are accumulated in iteration order. -/
def processTargets : List (String × JsonVal) → Except PyErr (List UpdateTarget)
  | [] => .ok []
  | (tid, tv) :: rest =>
    match tv with
    | .obj tkvs =>
      match build_target tid tkvs with
      | .error e => .error e
      | .ok u =>
        match processTargets rest with
        | .error e => .error e
        | .ok l => .ok (u :: l)
    | _ => .error .attributeError

/-- `parsing.parse_consent_required`: `json.loads` the payload, read the
`targets` mapping (defaulting to an empty dict) and build one
`UpdateTarget` per entry.  Exceptions propagate (`.error`): the function
has no handler of its own. -/
def parse_consent_required (raw : String) : Except PyErr (List UpdateTarget) :=
  match json_loads raw with
  | .error e => .error e
  | .ok (.obj dataKvs) =>
    match (objGet dataKvs "targets").getD (.obj []) with
    | .obj tkvs => processTargets tkvs
    | _ => .error .attributeError
  | .ok _ => .error .attributeError

/-- The text of the consent modal built in `MainWindow.on_consent_required`
from the first parsed target. -/
def consent_msg (t : UpdateTarget) : String :=
  "An update is available.\n\nApplication: " ++ pyStr t.name ++
  "\nNew version: " ++ t.version ++ "\n\n" ++
  (if jsonTruthy t.description then pyStr t.description else "No description provided.")

/-- `MainWindow.on_consent_required`: stop the check timeout; outside a
manual check only update the passive labels; during a manual check parse
the payload (a raised exception propagates as `.error`), bail out clearing
the flag when no targets were parsed, otherwise open the modal decision
(`userYes` is the user's answer) and report the decision to the worker. -/
def on_consent_required (s : UI) (raw : String) (userYes : Bool) :
    Except PyErr (UI × List Cmd) :=
  let s := if s.check_timeout_active then { s with check_timeout_active := false } else s
  if s.manual_check_active = false then
    .ok ({ s with info := "An update is available (pending consent).",
                  footer := "Press \x27Check for updates\x27 to review and apply it." }, [])
  else
    match parse_consent_required raw with
    | .error e => .error e
    | .ok [] => .ok ({ s with manual_check_active := false }, [])
    | .ok (t :: _) =>
      let msg := consent_msg t
      if userYes then
        let s := start_update_flow s
        .ok ({ s with manual_check_active := false },
             [.show_consent_modal msg, .send_consent true "Accepted via UI"])
      else
        let s := { s with info := "Update refused.", footer := "" }
        .ok ({ s with manual_check_active := false },
             [.show_consent_modal msg, .send_consent false "Refused via UI"])

/-- `MainWindow._show_reboot_prompt`: shown at most once
(`reboot_prompt_shown` guard); the user's Yes/No answer to the modal is the
`promptYes` parameter. -/
def show_reboot_prompt (s : UI) (promptYes : Bool) : UI × List Cmd :=
  if s.reboot_prompt_shown then (s, [])
  else
    let s := { s with reboot_prompt_shown := true }
    if promptYes then
      ({ s with info := "Rebooting to complete the update...",
                footer := "Please wait while the device restarts." },
       [.show_reboot_modal, .reboot_now])
    else
      ({ s with info := "Reboot postponed.",
                footer := "You can reboot later to complete the update." },
       [.show_reboot_modal])

/-- `MainWindow.on_phase_event`: phase markers parsed from the log.  The
`download_complete` branch runs before the idle guard; all other markers
are ignored while idle. -/
def on_phase_event (s : UI) (event : String) (promptYes : Bool) : UI × List Cmd :=
  if event = "download_complete" then
    let s := { s with phase_timer_active := false, phase := .downloaded }
    let s := set_progress_floor s 95
    ({ s with info := "Download completed. Applying update...",
              footer := "Finalizing changes..." }, [])
  else if s.phase = .idle then (s, [])
  else if event = "install_started" then (switch_to_installing s, [])
  else if event = "need_reboot" then
    let s := { s with phase := .need_reboot, phase_timer_active := false }
    let s := switch_to_installing s
    let s := lock_ui s false
    let s := { s with info := "Update ready. Reboot required.",
                      footer := "Please reboot to complete the update." }
    show_reboot_prompt s promptYes
  else if event = "install_complete" then (switch_to_installing s, [])
  else if event = "rebooting" then
    ({ s with info := "Rebooting to apply the update...",
              footer := "Please wait while the device restarts." }, [])
  else (s, [])

/-! ## Log-line extraction (`dbus_worker.process_line`)

The recognisers embed the regular expressions of `_watch_log_file`.  All of
them are chains of literals, `\s*` / `\s+` (greedy whitespace, always
followed by a non-whitespace literal or a digit, so maximal munch is
equivalent to the backtracking semantics), `(\d+)` (greedy digits followed
by `%`), and one `.*` (any characters except newline, used only for the
existence of a following literal).  `re.search` is embedded as trying the
matcher at every start position, leftmost first. -/

/-- Whitespace matched by `\s` and stripped by `str.strip()` (ASCII range;
the log lines contain no exotic Unicode spaces). -/
def pyWs (c : Char) : Bool :=
  c = ' ' || c = '\t' || c = '\n' || c = '\r' || c = '\x0b' || c = '\x0c'

/-- Python `str.strip()`. -/
def pyStripList (cs : List Char) : List Char :=
  ((cs.dropWhile pyWs).reverse.dropWhile pyWs).reverse

/-- Python `str.strip()` on strings. -/
def pyStrip (s : String) : String := ⟨pyStripList s.data⟩

/-- Greedy `\s*`. -/
def dropWsRe (cs : List Char) : List Char := cs.dropWhile pyWs

/-- Matcher for `Event:\s*DownloadProgressReport,\s*Progress at\s*(\d+)%`
at the head of the input; returns the captured digits. -/
def progressAt (cs : List Char) : Option (List Char) :=
  match dropLit "Event:".data cs with
  | none => none
  | some cs =>
    match dropLit "DownloadProgressReport,".data (dropWsRe cs) with
    | none => none
    | some cs =>
      match dropLit "Progress at".data (dropWsRe cs) with
      | none => none
      | some cs =>
        let cs := dropWsRe cs
        let ds := cs.takeWhile Char.isDigit
        let rest := cs.dropWhile Char.isDigit
        if ds.isEmpty then none
        else if (dropLit "%".data rest).isSome then some ds else none

/-- Matcher for `ostree-pull:\s*Receiving objects:\s+(\d+)%` at the head of
the input; returns the captured digits. -/
def ostreeAt (cs : List Char) : Option (List Char) :=
  match dropLit "ostree-pull:".data cs with
  | none => none
  | some cs =>
    match dropLit "Receiving objects:".data (dropWsRe cs) with
    | none => none
    | some cs =>
      let ws := cs.takeWhile pyWs
      let cs := cs.dropWhile pyWs
      if ws.isEmpty then none
      else
        let ds := cs.takeWhile Char.isDigit
        let rest := cs.dropWhile Char.isDigit
        if ds.isEmpty then none
        else if (dropLit "%".data rest).isSome then some ds else none

/-- Matcher for `Event:\s*InstallStarted` at the head of the input. -/
def installStartedAt (cs : List Char) : Bool :=
  match dropLit "Event:".data cs with
  | none => false
  | some cs => (dropLit "InstallStarted".data (dropWsRe cs)).isSome

/-- Matcher for
`Event:\s*AllInstallsComplete,\s*Result\s*-\s*NEED_COMPLETION` at the head
of the input. -/
def needRebootAt (cs : List Char) : Bool :=
  match dropLit "Event:".data cs with
  | none => false
  | some cs =>
    match dropLit "AllInstallsComplete,".data (dropWsRe cs) with
    | none => false
    | some cs =>
      match dropLit "Result".data (dropWsRe cs) with
      | none => false
      | some cs =>
        match dropLit "-".data (dropWsRe cs) with
        | none => false
        | some cs => (dropLit "NEED_COMPLETION".data (dropWsRe cs)).isSome

/-- `.*LIT`: scan forward (not across a newline) for the literal. -/
def scanToLit (lit : List Char) : List Char → Bool
  | [] => (dropLit lit []).isSome
  | c :: rest => (dropLit lit (c :: rest)).isSome || (!(c = '\n') && scanToLit lit rest)

/-- Matcher for `Event:\s*(InstallTargetComplete|AllInstallsComplete).*Result`
at the head of the input. -/
def installCompleteAt (cs : List Char) : Bool :=
  match dropLit "Event:".data cs with
  | none => false
  | some cs =>
    let cs := dropWsRe cs
    match dropLit "InstallTargetComplete".data cs with
    | some cs2 => scanToLit "Result".data cs2
    | none =>
      match dropLit "AllInstallsComplete".data cs with
      | some cs2 => scanToLit "Result".data cs2
      | none => false

/-- `re.search` for a capturing pattern: try every start position,
leftmost first. -/
def searchCap (m : List Char → Option (List Char)) : List Char → Option (List Char)
  | [] => m []
  | c :: cs =>
    match m (c :: cs) with
    | some r => some r
    | none => searchCap m cs

/-- `re.search` for a boolean pattern: some start position matches. -/
def searchHit (m : List Char → Bool) : List Char → Bool
  | [] => m []
  | c :: cs => m (c :: cs) || searchHit m cs

/-- Python `needle in hay` substring containment. -/
def listContains (needle hay : List Char) : Bool :=
  searchHit (fun cs => (dropLit needle cs).isSome) hay

/-- Substring containment on strings. -/
def strContains (needle hay : String) : Bool := listContains needle.data hay.data

/-- `is_download_complete_line` of `_watch_log_file`: substring matching of
the two historically distinct download-completion log formats. -/
def is_download_complete_line (text : String) : Bool :=
  strContains "Event: DownloadTargetComplete" text ||
  strContains "Event: AllDownloadsComplete" text

/-- `int(...)` of a captured group with the `except ValueError: p = 0`
handler of `process_line`: a string that is not a valid integer literal
yields 0 instead of an exception. -/
def pyIntD0 (ds : List Char) : ℤ :=
  if !ds.isEmpty && ds.all Char.isDigit then (digitsToNat ds : ℤ) else 0

/-- One log event emitted by the worker: a raw download percentage or a
phase marker string (the exact strings `process_line` passes to
`phase_event.emit`). -/
inductive PyEvent where
  | progress (p : ℤ)
  | phase (marker : String)
deriving DecidableEq, Repr

/-- `dbus_worker.process_line`: strip the line; empty lines produce
nothing; then the recognisers run in the fixed order download-complete,
ostree object-transfer percentage, `DownloadProgressReport` percentage,
install-started, need-reboot, install-complete, rebooting — first match
wins, percentages clamped to [0,100]. -/
def process_line (text : String) : Option PyEvent :=
  let t := pyStrip text
  if t = "" then none
  else if is_download_complete_line t then some (.phase "download_complete")
  else
    match searchCap ostreeAt t.data with
    | some ds => some (.progress (max 0 (min 100 (pyIntD0 ds))))
    | none =>
      match searchCap progressAt t.data with
      | some ds => some (.progress (max 0 (min 100 (pyIntD0 ds))))
      | none =>
        if searchHit installStartedAt t.data then some (.phase "install_started")
        else if searchHit needRebootAt t.data then some (.phase "need_reboot")
        else if searchHit installCompleteAt t.data then some (.phase "install_complete")
        else if strContains "About to reboot the system in order to apply pending updates" t
          then some (.phase "rebooting")
        else none

/-! ## Reboot request (`dbus_worker.reboot_now` / `_reboot_via_dbus`)

The subprocess world is passed in explicitly: whether the helper binary
exists at its configured path, and the outcome of running it (`completes`
with an exit code and captured output, `noReturn` when the system restarts
before `communicate()` returns, or `execError` when launching the process
raises).  The emitted Qt signals are returned as a list, in emission
order. -/

/-- Reboot lifecycle signals of the worker. -/
inductive REvt where
  | reboot_started
  | reboot_failed (msg : String)
deriving DecidableEq, Repr

/-- Outcome of the `dbus-send` subprocess. -/
inductive ProcOutcome where
  | completes (rc : ℤ) (out : String) (err : String)
  | noReturn
  | execError (msg : String)
deriving DecidableEq, Repr

/-- The `dbus-send` command line built in `_reboot_via_dbus`. -/
def dbus_cmd (dbus_send_abs : String) : List String :=
  [dbus_send_abs, "--system", "--print-reply", "--dest=org.freedesktop.login1",
   "/org/freedesktop/login1", "org.freedesktop.login1.Manager.Reboot", "boolean:false"]

/-- `DBusWorker._format_proc_failure`: return code, command line and
captured output rendered into one diagnostic message. -/
def format_proc_failure (cmd : List String) (rc : ℤ) (out err : String) : String :=
  let out_s := pyStrip out
  let err_s := pyStrip err
  let cmd_s := String.intercalate " " cmd
  let msg := "D-Bus reboot failed (rc=" ++ toString rc ++ "): " ++ cmd_s
  let msg := if out_s ≠ "" then msg ++ "\n\nstdout:\n" ++ out_s else msg
  if err_s ≠ "" then msg ++ "\n\nstderr:\n" ++ err_s else msg

/-- `DBusWorker._reboot_via_dbus`: refuse with a remediation hint when the
helper binary is missing; otherwise run it and report a non-zero exit (or a
launch exception) through `reboot_failed`; a zero exit, or a call that
never returns because the system restarts, emits nothing. -/
def reboot_via_dbus (dbus_send_abs : String) (helperExists : Bool)
    (outcome : ProcOutcome) : List REvt :=
  if helperExists = false then
    [.reboot_failed ("Missing " ++ dbus_send_abs ++
      ". Install dbus-send in the container (package: dbus).")]
  else
    match outcome with
    | .noReturn => []
    | .completes rc out err =>
      if rc ≠ 0 then [.reboot_failed (format_proc_failure (dbus_cmd dbus_send_abs) rc out err)]
      else []
    | .execError m => [.reboot_failed ("D-Bus reboot failed: " ++ m)]

/-- `DBusWorker.reboot_now`: emit `reboot_started` unconditionally, then
schedule `_reboot_via_dbus`. -/
def reboot_now (dbus_send_abs : String) (helperExists : Bool)
    (outcome : ProcOutcome) : List REvt :=
  REvt.reboot_started :: reboot_via_dbus dbus_send_abs helperExists outcome

/-! ## Helper lemmas about the progress operations -/

theorem set_progress_floor_progress (s : UI) (v : ℤ) :
    (set_progress_floor s v).phase_progress =
      max s.phase_progress ((max 0 (min 100 v) : ℤ) : ℚ) := by
  simp only [set_progress_floor]
  split_ifs with h
  · exact (max_eq_right h.le).symm
  · exact (max_eq_left (not_lt.mp h)).symm

theorem set_progress_floor_mono (s : UI) (v : ℤ) :
    s.phase_progress ≤ (set_progress_floor s v).phase_progress := by
  rw [set_progress_floor_progress]
  exact le_max_left _ _

theorem set_progress_floor_phase (s : UI) (v : ℤ) :
    (set_progress_floor s v).phase = s.phase := by
  simp only [set_progress_floor]
  split_ifs <;> rfl

theorem set_progress_floor_starting (s : UI) (v : ℤ) :
    (set_progress_floor s v).starting_pct = s.starting_pct := by
  simp only [set_progress_floor]
  split_ifs <;> rfl

theorem advance_to_target_mono (s : UI) (t : ℤ) (st : ℚ) (hst : 0 ≤ st) :
    s.phase_progress ≤ (advance_to_target s t st).phase_progress := by
  simp only [advance_to_target]
  split_ifs with h h2
  · exact h.le
  · simpa using hst
  · exact le_refl _

theorem switch_to_downloading_progress (s : UI) :
    (switch_to_downloading s).phase_progress = s.phase_progress := by
  simp only [switch_to_downloading]
  split_ifs <;> rfl

theorem switch_to_downloading_phase (s : UI) :
    (switch_to_downloading s).phase = .downloading := by
  simp only [switch_to_downloading]
  split_ifs with h
  · exact h
  · rfl

theorem switch_to_downloading_starting (s : UI) :
    (switch_to_downloading s).starting_pct = s.starting_pct := by
  simp only [switch_to_downloading]
  split_ifs <;> rfl

theorem switch_to_installing_progress (s : UI) :
    (switch_to_installing s).phase_progress =
      if s.phase = .installing then s.phase_progress
      else max s.phase_progress 95 := by
  simp only [switch_to_installing]
  split_ifs with h
  · rfl
  · simp only [set_progress_floor_progress]
    norm_num

theorem switch_to_installing_mono (s : UI) :
    s.phase_progress ≤ (switch_to_installing s).phase_progress := by
  rw [switch_to_installing_progress]
  split_ifs
  · exact le_refl _
  · exact le_max_left _ _

theorem show_reboot_prompt_progress (s : UI) (b : Bool) :
    (show_reboot_prompt s b).1.phase_progress = s.phase_progress := by
  simp only [show_reboot_prompt]
  split_ifs <;> rfl

theorem on_phase_tick_mono (s : UI) :
    s.phase_progress ≤ (on_phase_tick s).phase_progress := by
  simp only [on_phase_tick]
  split_ifs
  · exact le_refl _
  · exact advance_to_target_mono _ _ _ (by norm_num)
  · exact le_refl _

theorem lock_ui_progress (s : UI) (b : Bool) :
    (lock_ui s b).phase_progress = s.phase_progress := rfl

theorem on_phase_event_mono (s : UI) (e : String) (b : Bool) :
    s.phase_progress ≤ (on_phase_event s e b).1.phase_progress := by
  simp only [on_phase_event]
  split_ifs <;>
    simp only [show_reboot_prompt_progress, lock_ui_progress, set_progress_floor_progress,
      switch_to_installing_progress] <;>
    first
      | exact le_refl _
      | exact le_max_left _ _
      | (split_ifs <;> first | exact le_refl _ | exact le_max_left _ _)

theorem on_download_progress_raw_mono (s : UI) (p : ℤ) :
    s.phase_progress ≤ (on_download_progress_raw s p).phase_progress := by
  simp only [on_download_progress_raw]
  split_ifs <;>
    first
      | exact le_refl _
      | (rcases hsp : s.starting_pct with _ | start <;>
          simp only [switch_to_downloading_starting, hsp, set_progress_floor_progress,
            switch_to_downloading_progress] <;>
          exact le_max_left _ _)

theorem is_update_flow_active_iff (s : UI) :
    is_update_flow_active s = true ↔ s.phase ≠ .idle := by
  cases hp : s.phase <;> simp [is_update_flow_active, hp]

/-- Behaviour of `on_phase_event` on a `download_complete` marker, from any
state: phase becomes `downloaded`, the bar is floored at 95, no worker
command is issued. -/
theorem on_phase_event_dc (s : UI) (b : Bool) :
    (on_phase_event s "download_complete" b).1.phase = .downloaded ∧
    (on_phase_event s "download_complete" b).1.phase_progress = max s.phase_progress 95 ∧
    (on_phase_event s "download_complete" b).2 = [] := by
  simp only [on_phase_event, if_true]
  refine ⟨?_, ?_, ?_⟩
  · simp only [set_progress_floor_phase]
  · simp only [set_progress_floor_progress]
    norm_num
  · trivial

/-! ## The claims -/

/-- C1: for every update flow, `phase_progress` is non-decreasing: each of
the operations that change it (`_advance_to_target` with the nonnegative
steps its callers pass, `_set_progress_floor`, and their callers
`on_phase_tick`, `on_download_progress_raw`, `on_phase_event`,
`switch_to_installing`) only raises it or leaves it unchanged, and the
reset to 0 (`reset_progress_state`) happens together with the transition
back to the `idle` phase. -/
theorem c1_phase_progress_monotone :
    (∀ (s : UI) (t : ℤ) (st : ℚ), 0 ≤ st →
      s.phase_progress ≤ (advance_to_target s t st).phase_progress) ∧
    (∀ (s : UI) (v : ℤ), s.phase_progress ≤ (set_progress_floor s v).phase_progress) ∧
    (∀ s : UI, s.phase_progress ≤ (on_phase_tick s).phase_progress) ∧
    (∀ (s : UI) (p : ℤ), s.phase_progress ≤ (on_download_progress_raw s p).phase_progress) ∧
    (∀ (s : UI) (e : String) (b : Bool),
      s.phase_progress ≤ (on_phase_event s e b).1.phase_progress) ∧
    (∀ s : UI, s.phase_progress ≤ (switch_to_installing s).phase_progress) ∧
    (∀ s : UI, (reset_progress_state s).phase = .idle ∧
      (reset_progress_state s).phase_progress = 0) :=
  ⟨advance_to_target_mono, set_progress_floor_mono, on_phase_tick_mono,
   on_download_progress_raw_mono, on_phase_event_mono, switch_to_installing_mono,
   fun _ => ⟨rfl, rfl⟩⟩

theorem c1_phase_progress_monotone_witness :
    (0 : ℚ) ≤ 1 ∧
    initState.phase_progress ≤ (advance_to_target initState 50 1).phase_progress :=
  ⟨by norm_num, c1_phase_progress_monotone.1 initState 50 1 (by norm_num)⟩

/-- C3: a `download_complete` phase marker always sets the phase to
`downloaded` and floors the progress bar at 95, whatever raw percentage
(if any) was last seen — the new progress is `max old 95`, so a bar that
never went above 50 jumps to 95. -/
theorem c3_download_complete_forces_95 (s : UI) (b : Bool) :
    (on_phase_event s "download_complete" b).1.phase = .downloaded ∧
    (on_phase_event s "download_complete" b).1.phase_progress = max s.phase_progress 95 :=
  ⟨(on_phase_event_dc s b).1, (on_phase_event_dc s b).2.1⟩

/-- C9: while the phase is `idle`, a `download_complete` marker still
transitions to `downloaded` with the bar floored at 95 (its branch runs
before the idle guard), whereas the four other markers leave the whole
state unchanged and issue no command. -/
theorem c9_idle_phase_event_handling (s : UI) (b : Bool) (h : s.phase = .idle) :
    (on_phase_event s "download_complete" b).1.phase = .downloaded ∧
    (on_phase_event s "download_complete" b).1.phase_progress = max s.phase_progress 95 ∧
    on_phase_event s "install_started" b = (s, []) ∧
    on_phase_event s "need_reboot" b = (s, []) ∧
    on_phase_event s "install_complete" b = (s, []) ∧
    on_phase_event s "rebooting" b = (s, []) := by
  refine ⟨(on_phase_event_dc s b).1, (on_phase_event_dc s b).2.1, ?_, ?_, ?_, ?_⟩ <;>
    · simp only [on_phase_event]
      rw [if_neg (by decide), if_pos h]

theorem c9_idle_phase_event_handling_witness :
    initState.phase = .idle ∧
    on_phase_event initState "install_started" false = (initState, []) ∧
    on_phase_event initState "need_reboot" false = (initState, []) :=
  ⟨rfl, (c9_idle_phase_event_handling initState false rfl).2.2.1,
    (c9_idle_phase_event_handling initState false rfl).2.2.2.1⟩

/-- C5: in any phase other than `idle`, a mode change and a new manual
check are rejected with a user-visible message and send no command to the
worker; in `idle` they proceed (`set_mode` resp. `check_for_updates` is
sent). -/
theorem c5_locked_while_not_idle (s : UI) (checked : Bool) :
    (s.phase ≠ .idle →
      (on_mode_toggled s checked).2 = [] ∧
      (on_mode_toggled s checked).1.info =
        "An update is in progress. Mode cannot be changed now." ∧
      (on_check_clicked s).2 = [] ∧
      (on_check_clicked s).1.info = "An update is already in progress.") ∧
    (s.phase = .idle →
      (on_mode_toggled s checked).2 = [Cmd.set_mode (if checked then 1 else 0)] ∧
      (on_check_clicked s).2 = [Cmd.check_for_updates]) := by
  constructor
  · intro h
    have ha : is_update_flow_active s = true ∧ s.phase ≠ .idle :=
      ⟨(is_update_flow_active_iff s).mpr h, h⟩
    simp only [on_mode_toggled, on_check_clicked, if_pos ha]
    refine ⟨?_, ?_, ?_, ?_⟩ <;> trivial
  · intro h
    have ha : ¬(is_update_flow_active s = true ∧ s.phase ≠ .idle) := by simp [h]
    simp only [on_mode_toggled, on_check_clicked, if_neg ha]
    refine ⟨?_, ?_⟩ <;> trivial

theorem c5_locked_while_not_idle_witness :
    ((start_update_flow initState).phase ≠ .idle ∧
      (on_mode_toggled (start_update_flow initState) true).2 = [] ∧
      (on_check_clicked (start_update_flow initState)).2 = []) ∧
    (initState.phase = .idle ∧
      (on_mode_toggled initState true).2 = [Cmd.set_mode 1] ∧
      (on_check_clicked initState).2 = [Cmd.check_for_updates]) := by
  have hne : (start_update_flow initState).phase ≠ .idle := by decide
  have h1 := (c5_locked_while_not_idle (start_update_flow initState) true).1 hne
  have h2 := (c5_locked_while_not_idle initState true).2 rfl
  exact ⟨⟨hne, h1.1, h1.2.2.1⟩, ⟨rfl, h2.1, h2.2⟩⟩

/-! ## Helper lemmas for the real-progress mapping (C2) -/

theorem pyInt_intCast (n : ℤ) : pyInt ((n : ℤ) : ℚ) = n := by
  rw [pyInt, Rat.num_intCast, Rat.den_intCast]
  exact Int.tdiv_one n

/-- Accepted-range raw values below the last accepted raw value are
discarded without any state change. -/
theorem dpr_discard (s : UI) (p : ℤ) (h1 : s.phase ≠ .idle) (hp0 : 0 ≤ p)
    (hp100 : p ≤ 100) (hlt : p < s.last_raw_pct) :
    on_download_progress_raw s p = s := by
  have hcl : max 0 (min 100 p) = p := by omega
  simp only [on_download_progress_raw]
  rw [if_neg h1, hcl, if_pos hlt]

/-- Raw values ≤ 50 never move the bar, the phase or the progress math. -/
theorem dpr_low (s : UI) (p : ℤ) (h1 : s.phase ≠ .idle) (hp50 : p ≤ 50) :
    (on_download_progress_raw s p).phase_progress = s.phase_progress ∧
    (on_download_progress_raw s p).phase = s.phase ∧
    (on_download_progress_raw s p).starting_pct = s.starting_pct := by
  have hcl : max 0 (min 100 p) ≤ 50 := by omega
  simp only [on_download_progress_raw]
  rw [if_neg h1]
  split_ifs with h2 <;> exact ⟨rfl, rfl, rfl⟩

/-- The first raw value above 50: `starting_pct` is recorded, the phase
switches to `downloading`, and the bar is floored at `min p 94`. -/
theorem dpr_first (s : UI) (p : ℤ) (h1 : s.phase ≠ .idle) (hsp : s.starting_pct = none)
    (hp50 : 50 < p) (hp100 : p ≤ 100) (hge : s.last_raw_pct ≤ p) :
    (on_download_progress_raw s p).starting_pct = some p ∧
    (on_download_progress_raw s p).phase = .downloading ∧
    (on_download_progress_raw s p).phase_progress =
      max s.phase_progress ((min p 94 : ℤ) : ℚ) := by
  have hcl : max 0 (min 100 p) = p := by omega
  simp only [on_download_progress_raw]
  rw [if_neg h1, hcl, if_neg (not_lt.mpr hge), if_neg (by omega : ¬ p ≤ 50)]
  have hs1 : (if ({ s with last_raw_pct := p } : UI).phase = .downloading
      then ({ s with last_raw_pct := p } : UI)
      else switch_to_downloading { s with last_raw_pct := p }).starting_pct = none := by
    split_ifs
    · exact hsp
    · rw [switch_to_downloading_starting]; exact hsp
  simp only [hs1]
  refine ⟨?_, ?_, ?_⟩
  · simp only [set_progress_floor_starting]
  · rw [set_progress_floor_phase]
    split_ifs with h2
    · exact h2
    · rw [switch_to_downloading_phase]
  · rw [set_progress_floor_progress]
    have hmin : max 0 (min 100 (min p 94)) = min p 94 := by omega
    rw [hmin]
    congr 1
    split_ifs
    · rfl
    · rw [switch_to_downloading_progress]

/-- Nonnegativity of the rescaled value
`p0 + (p - p0) / (100 - p0) * (94 - p0)` for `50 < p0 ≤ p ≤ 100`
(in fact it lies between `min p0 94` and `max p0 94`). -/
theorem scaled_nonneg (p p0 : ℤ) (hp0 : 50 < p0) (hle : p0 ≤ p) (hp100 : p ≤ 100) :
    (0 : ℚ) ≤ (p0 : ℚ) + ((p : ℚ) - p0) / ((100 : ℚ) - p0) * (94 - p0) := by
  rcases eq_or_lt_of_le (show (p0 : ℤ) ≤ 100 by omega) with h100 | h100
  · have hp : (p : ℤ) = 100 := by omega
    rw [← h100] at hp
    simp [hp, ← h100]
    positivity
  · have hd : (0 : ℚ) < (100 : ℚ) - p0 := by
      have : (p0 : ℚ) < 100 := by exact_mod_cast h100
      linarith
    have hr0 : (0 : ℚ) ≤ ((p : ℚ) - p0) / ((100 : ℚ) - p0) := by
      apply div_nonneg _ hd.le
      have : (p0 : ℚ) ≤ p := by exact_mod_cast hle
      linarith
    have hr1 : ((p : ℚ) - p0) / ((100 : ℚ) - p0) ≤ 1 := by
      rw [div_le_one hd]
      have : (p : ℚ) ≤ 100 := by exact_mod_cast hp100
      linarith
    rcases le_or_lt (p0 : ℚ) 94 with h94 | h94
    · have : (0 : ℚ) ≤ ((p : ℚ) - p0) / ((100 : ℚ) - p0) * (94 - p0) :=
        mul_nonneg hr0 (by linarith)
      have hp0q : (50 : ℚ) < p0 := by exact_mod_cast hp0
      linarith
    · have hneg : ((94 : ℚ) - p0) ≤ 0 := by linarith
      have : (1 - ((p : ℚ) - p0) / ((100 : ℚ) - p0)) * ((94 : ℚ) - p0) ≤ 0 :=
        mul_nonpos_of_nonneg_of_nonpos (by linarith) hneg
      nlinarith

theorem set_progress_floor_last (s : UI) (v : ℤ) :
    (set_progress_floor s v).last_raw_pct = s.last_raw_pct := by
  simp only [set_progress_floor]
  split_ifs <;> rfl

theorem switch_to_downloading_last (s : UI) :
    (switch_to_downloading s).last_raw_pct = s.last_raw_pct := by
  simp only [switch_to_downloading]
  split_ifs <;> rfl

/-- Subsequent raw values with `starting_pct = p0` floor the bar at the
rescaled value `min 94 (int(p0 + (p - p0) / (100 - p0) * (94 - p0)))`;
`starting_pct` is kept, the phase stays/becomes `downloading` and the raw
value is recorded as `last_raw_pct`. -/
theorem dpr_subsequent (s : UI) (p p0 : ℤ) (h1 : s.phase ≠ .idle)
    (hsp : s.starting_pct = some p0) (hp0 : 50 < p0) (hle : p0 ≤ p)
    (hp100 : p ≤ 100) (hge : s.last_raw_pct ≤ p) :
    (on_download_progress_raw s p).phase_progress =
      max s.phase_progress
        ((min 94 (pyInt ((p0 : ℚ) + ((p : ℚ) - p0) / ((100 : ℚ) - p0) * (94 - p0))) : ℤ) : ℚ) ∧
    (on_download_progress_raw s p).starting_pct = some p0 ∧
    (on_download_progress_raw s p).phase = .downloading ∧
    (on_download_progress_raw s p).last_raw_pct = p := by
  have hcl : max 0 (min 100 p) = p := by omega
  simp only [on_download_progress_raw]
  rw [if_neg h1, hcl, if_neg (not_lt.mpr hge), if_neg (by omega : ¬ p ≤ 50)]
  have hs1 : (if ({ s with last_raw_pct := p } : UI).phase = .downloading
      then ({ s with last_raw_pct := p } : UI)
      else switch_to_downloading { s with last_raw_pct := p }).starting_pct = some p0 := by
    split_ifs
    · exact hsp
    · rw [switch_to_downloading_starting]; exact hsp
  simp only [hs1]
  have hform : (p0 : ℚ) + ((p - p0 : ℤ) : ℚ) / ((max 1 (100 - p0) : ℤ) : ℚ) * ((94 - p0 : ℤ) : ℚ)
      = (p0 : ℚ) + ((p : ℚ) - p0) / ((100 : ℚ) - p0) * (94 - p0) := by
    rcases eq_or_lt_of_le (show (p0 : ℤ) ≤ 100 by omega) with h100 | h100
    · have hp : (p : ℤ) = p0 := by omega
      subst hp
      push_cast
      simp
    · have hd : max 1 (100 - p0) = 100 - p0 := by omega
      rw [hd]
      push_cast
      ring
  rw [hform]
  set w : ℤ := pyInt ((p0 : ℚ) + ((p : ℚ) - p0) / ((100 : ℚ) - p0) * (94 - p0)) with hw
  have hw0 : 0 ≤ w := by
    rw [hw, pyInt_eq_floor _ (scaled_nonneg p p0 hp0 hle hp100)]
    exact Int.floor_nonneg.mpr (scaled_nonneg p p0 hp0 hle hp100)
  have hcap : (if w ≥ 95 then (94 : ℤ) else w) = min 94 w := by omega
  rw [hcap]
  refine ⟨?_, ?_, ?_, ?_⟩
  · rw [set_progress_floor_progress]
    have hmm : max 0 (min 100 (min 94 w)) = min 94 w := by omega
    rw [hmm]
    congr 1
    split_ifs
    · rfl
    · rw [switch_to_downloading_progress]
  · simp only [set_progress_floor_starting, hs1]
  · rw [set_progress_floor_phase]
    split_ifs with h2
    · exact h2
    · rw [switch_to_downloading_phase]
  · rw [set_progress_floor_last]
    split_ifs
    · rfl
    · rw [switch_to_downloading_last]

/-- The raw-progress scenario runner: fold the given raw values through
`on_download_progress_raw`, starting from a freshly started update flow
(phase `preparing`, progress 0). -/
def c2_run (ps : List ℤ) : UI :=
  ps.foldl on_download_progress_raw (start_update_flow initState)

/-- The state reached after the raw values 10, 30, 75 of the C2 scenario. -/
def c2_state75 : UI :=
  { start_update_flow initState with
      last_raw_pct := 75, phase := .downloading, phase_timer_active := false,
      starting_pct := some 75, phase_progress := 75, progress_bar_value := 75,
      info := "Downloading update... 75%",
      footer := "Downloading the update. This may take several minutes." }

theorem c2_run75_eq : c2_run [10, 30, 75] = c2_state75 := rfl

theorem c2_after82 :
    (on_download_progress_raw c2_state75 82).phase_progress = 80 ∧
    (on_download_progress_raw c2_state75 82).starting_pct = some 75 ∧
    (on_download_progress_raw c2_state75 82).phase = .downloading ∧
    (on_download_progress_raw c2_state75 82).last_raw_pct = 82 := by
  have h82 := dpr_subsequent c2_state75 82 75 (by decide) rfl (by decide) (by decide)
    (by decide) (by decide)
  refine ⟨?_, h82.2.1, h82.2.2.1, h82.2.2.2⟩
  rw [h82.1]
  have hpy : pyInt (((75 : ℤ) : ℚ) + (((82 : ℤ) : ℚ) - ((75 : ℤ) : ℚ)) /
      ((100 : ℚ) - ((75 : ℤ) : ℚ)) * (94 - ((75 : ℤ) : ℚ))) = 80 := by
    rw [show (((75 : ℤ) : ℚ) + (((82 : ℤ) : ℚ) - ((75 : ℤ) : ℚ)) /
        ((100 : ℚ) - ((75 : ℤ) : ℚ)) * (94 - ((75 : ℤ) : ℚ))) = 2008 / 25 by
      push_cast
      norm_num]
    rw [pyInt_eq_floor _ (by norm_num)]
    norm_num
  rw [hpy]
  show max c2_state75.phase_progress _ = 80
  norm_num [c2_state75]

/-- C2: in a non-idle phase, raw download values in `[0, 100]` below the
last accepted raw value are discarded and values ≤ 50 never move the bar
or the phase; the first raw value `p0 > 50` records `starting_pct = p0`,
switches the phase to `downloading` and floors the bar at `min p0 94`;
every later accepted raw value `p` (`p0 ≤ p ≤ 100`, equal values accepted)
floors the bar at `min 94 (int(p0 + (p - p0) / (100 - p0) * (94 - p0)))`.
Concretely, for the raw sequence [10, 30, 75, 82, 100] starting in
`preparing`: 10 and 30 leave the bar at 0, at 75 the bar floors to 75 and
the phase becomes `downloading`, at 82 it floors to 80, and at 100 it
clamps to 94. -/
theorem c2_stage_b_real_progress :
    (∀ (s : UI) (p : ℤ), s.phase ≠ .idle → 0 ≤ p → p ≤ 100 → p < s.last_raw_pct →
      on_download_progress_raw s p = s) ∧
    (∀ (s : UI) (p : ℤ), s.phase ≠ .idle → p ≤ 50 →
      (on_download_progress_raw s p).phase_progress = s.phase_progress ∧
      (on_download_progress_raw s p).phase = s.phase ∧
      (on_download_progress_raw s p).starting_pct = s.starting_pct) ∧
    (∀ (s : UI) (p : ℤ), s.phase ≠ .idle → s.starting_pct = none → 50 < p → p ≤ 100 →
      s.last_raw_pct ≤ p →
      (on_download_progress_raw s p).starting_pct = some p ∧
      (on_download_progress_raw s p).phase = .downloading ∧
      (on_download_progress_raw s p).phase_progress =
        max s.phase_progress ((min p 94 : ℤ) : ℚ)) ∧
    (∀ (s : UI) (p p0 : ℤ), s.phase ≠ .idle → s.starting_pct = some p0 → 50 < p0 →
      p0 ≤ p → p ≤ 100 → s.last_raw_pct ≤ p →
      (on_download_progress_raw s p).phase_progress =
        max s.phase_progress
          ((min 94 (pyInt ((p0 : ℚ) + ((p : ℚ) - p0) / ((100 : ℚ) - p0) * (94 - p0))) : ℤ) : ℚ)) ∧
    ((c2_run [10, 30]).phase_progress = 0 ∧
     (c2_run [10, 30]).phase = .preparing ∧
     (c2_run [10, 30, 75]).phase = .downloading ∧
     (c2_run [10, 30, 75]).phase_progress = 75 ∧
     (c2_run [10, 30, 75, 82]).phase_progress = 80 ∧
     (c2_run [10, 30, 75, 82, 100]).phase_progress = 94) := by
  refine ⟨dpr_discard, dpr_low, dpr_first,
    fun s p p0 h1 hsp hp0 hle hp100 hge =>
      (dpr_subsequent s p p0 h1 hsp hp0 hle hp100 hge).1,
    rfl, rfl, rfl, rfl, ?_, ?_⟩
  · rw [show c2_run [10, 30, 75, 82] = on_download_progress_raw c2_state75 82 from by
      rw [← c2_run75_eq]; rfl]
    exact c2_after82.1
  · rw [show c2_run [10, 30, 75, 82, 100] =
        on_download_progress_raw (on_download_progress_raw c2_state75 82) 100 from by
      rw [← c2_run75_eq]; rfl]
    have h100 := (dpr_subsequent (on_download_progress_raw c2_state75 82) 100 75
      (by rw [c2_after82.2.2.1]; decide) c2_after82.2.1 (by decide) (by decide) (by decide)
      (by rw [c2_after82.2.2.2]; decide)).1
    rw [h100, c2_after82.1]
    have hpy2 : pyInt (((75 : ℤ) : ℚ) + (((100 : ℤ) : ℚ) - ((75 : ℤ) : ℚ)) /
        ((100 : ℚ) - ((75 : ℤ) : ℚ)) * (94 - ((75 : ℤ) : ℚ))) = 94 := by
      rw [show (((75 : ℤ) : ℚ) + (((100 : ℤ) : ℚ) - ((75 : ℤ) : ℚ)) /
          ((100 : ℚ) - ((75 : ℤ) : ℚ)) * (94 - ((75 : ℤ) : ℚ))) = 94 by
        push_cast
        norm_num]
      rw [pyInt_eq_floor _ (by norm_num)]
      norm_num
    rw [hpy2]
    norm_num

theorem c2_stage_b_real_progress_witness :
    (start_update_flow initState).phase ≠ .idle ∧
    (start_update_flow initState).starting_pct = none ∧
    (50 : ℤ) < 75 ∧ (75 : ℤ) ≤ 100 ∧
    (start_update_flow initState).last_raw_pct ≤ 75 ∧
    ((on_download_progress_raw (start_update_flow initState) 75).starting_pct = some 75 ∧
     (on_download_progress_raw (start_update_flow initState) 75).phase = .downloading ∧
     (on_download_progress_raw (start_update_flow initState) 75).phase_progress =
       max (start_update_flow initState).phase_progress ((min 75 94 : ℤ) : ℚ)) :=
  ⟨by decide, rfl, by decide, by decide, by decide,
   c2_stage_b_real_progress.2.2.1 (start_update_flow initState) 75 (by decide) rfl
     (by decide) (by decide) (by decide)⟩

/-! ## Helper lemmas for substring containment (C8) -/

theorem data_append (a b : String) : (a ++ b).data = a.data ++ b.data := by
  rcases a with ⟨la⟩
  rcases b with ⟨lb⟩
  rfl

theorem dropLit_self (n t : List Char) : dropLit n (n ++ t) = some t := by
  induction n with
  | nil => rfl
  | cons c cs ih => simp [dropLit, ih]

theorem listContains_self (n suf : List Char) : listContains n (n ++ suf) = true := by
  cases n with
  | nil => cases suf <;> simp [listContains, searchHit, dropLit]
  | cons c cs =>
    have h : (dropLit (c :: cs) (c :: (cs ++ suf))).isSome = true := by
      rw [show (c :: (cs ++ suf)) = (c :: cs) ++ suf from rfl, dropLit_self]
      rfl
    simp [listContains, searchHit, h]

theorem listContains_self_nil (n : List Char) : listContains n n = true := by
  simpa using listContains_self n []

theorem listContains_cons (n : List Char) (c : Char) (h : List Char)
    (hc : listContains n h = true) : listContains n (c :: h) = true := by
  simp [listContains, searchHit] at hc ⊢
  exact Or.inr hc

theorem listContains_append_left (n pre h : List Char)
    (hc : listContains n h = true) : listContains n (pre ++ h) = true := by
  induction pre with
  | nil => simpa using hc
  | cons c cs ih => simpa using listContains_cons n c (cs ++ h) ih

/-- The failure message always contains the rendered exit code. -/
theorem format_contains_rc (cmd : List String) (rc : ℤ) (out err : String) :
    strContains (toString rc) (format_proc_failure cmd rc out err) = true := by
  simp only [format_proc_failure]
  split_ifs <;>
    (simp only [strContains, data_append, List.append_assoc]
     exact listContains_append_left _ _ _ (listContains_self _ _))

/-- The failure message always contains the command line. -/
theorem format_contains_cmd (cmd : List String) (rc : ℤ) (out err : String) :
    strContains (String.intercalate " " cmd) (format_proc_failure cmd rc out err) = true := by
  simp only [format_proc_failure]
  split_ifs <;>
    (simp only [strContains, data_append, List.append_assoc]
     apply listContains_append_left
     apply listContains_append_left
     apply listContains_append_left
     first
       | exact listContains_self _ _
       | exact listContains_self_nil _)

/-- When stdout is non-empty after stripping, the failure message contains
it. -/
theorem format_contains_out (cmd : List String) (rc : ℤ) (out err : String)
    (h : pyStrip out ≠ "") :
    strContains (pyStrip out) (format_proc_failure cmd rc out err) = true := by
  simp only [format_proc_failure]
  split_ifs with h1
  · simp only [strContains, data_append, List.append_assoc]
    apply listContains_append_left
    apply listContains_append_left
    apply listContains_append_left
    apply listContains_append_left
    apply listContains_append_left
    exact listContains_self _ _
  · simp only [strContains, data_append, List.append_assoc]
    apply listContains_append_left
    apply listContains_append_left
    apply listContains_append_left
    apply listContains_append_left
    apply listContains_append_left
    exact listContains_self_nil _

/-- When stderr is non-empty after stripping, the failure message contains
it. -/
theorem format_contains_err (cmd : List String) (rc : ℤ) (out err : String)
    (h : pyStrip err ≠ "") :
    strContains (pyStrip err) (format_proc_failure cmd rc out err) = true := by
  simp only [format_proc_failure]
  split_ifs with h1
  · simp only [strContains, data_append, List.append_assoc]
    apply listContains_append_left
    apply listContains_append_left
    apply listContains_append_left
    apply listContains_append_left
    apply listContains_append_left
    apply listContains_append_left
    apply listContains_append_left
    exact listContains_self_nil _
  · simp only [strContains, data_append, List.append_assoc]
    apply listContains_append_left
    apply listContains_append_left
    apply listContains_append_left
    apply listContains_append_left
    apply listContains_append_left
    exact listContains_self_nil _

/-- C8: the reboot request checks the helper binary first — when it is
missing, `reboot_failed` carries the configured path and a remediation
hint; when the helper exits non-zero, `reboot_failed` carries the full
`_format_proc_failure` message, which contains the command line, the
rendered exit code and the stripped stdout/stderr when non-empty; a zero
exit emits no failure event. -/
theorem c8_reboot_failure_reporting :
    (∀ (path : String) (o : ProcOutcome), ∃ m,
      reboot_via_dbus path false o = [.reboot_failed m] ∧
      strContains path m = true ∧
      strContains "Install dbus-send in the container (package: dbus)." m = true) ∧
    (∀ (path out err : String) (rc : ℤ), rc ≠ 0 →
      reboot_via_dbus path true (.completes rc out err) =
        [.reboot_failed (format_proc_failure (dbus_cmd path) rc out err)] ∧
      strContains (String.intercalate " " (dbus_cmd path))
        (format_proc_failure (dbus_cmd path) rc out err) = true ∧
      strContains (toString rc) (format_proc_failure (dbus_cmd path) rc out err) = true ∧
      (pyStrip out ≠ "" →
        strContains (pyStrip out) (format_proc_failure (dbus_cmd path) rc out err) = true) ∧
      (pyStrip err ≠ "" →
        strContains (pyStrip err) (format_proc_failure (dbus_cmd path) rc out err) = true)) ∧
    (∀ (path out err : String), reboot_via_dbus path true (.completes 0 out err) = []) := by
  refine ⟨?_, ?_, ?_⟩
  · intro path o
    refine ⟨"Missing " ++ path ++ ". Install dbus-send in the container (package: dbus).",
      rfl, ?_, ?_⟩
    · simp only [strContains, data_append, List.append_assoc]
      apply listContains_append_left
      exact listContains_self _ _
    · rw [show (". Install dbus-send in the container (package: dbus)." : String) =
          ". " ++ "Install dbus-send in the container (package: dbus)." from rfl]
      simp only [strContains, data_append, List.append_assoc]
      apply listContains_append_left
      apply listContains_append_left
      apply listContains_append_left
      exact listContains_self_nil _
  · intro path out err rc hrc
    refine ⟨?_, format_contains_cmd _ _ _ _, format_contains_rc _ _ _ _,
      format_contains_out _ _ _ _, format_contains_err _ _ _ _⟩
    simp only [reboot_via_dbus, if_pos hrc]
    rfl
  · intro path out err
    simp [reboot_via_dbus]

theorem c8_reboot_failure_reporting_witness :
    ((1 : ℤ) ≠ 0 ∧
      reboot_via_dbus "/usr/bin/dbus-send" true (.completes 1 "boom" "bad") =
        [.reboot_failed (format_proc_failure (dbus_cmd "/usr/bin/dbus-send") 1 "boom" "bad")] ∧
      strContains "bad" (format_proc_failure (dbus_cmd "/usr/bin/dbus-send") 1 "boom" "bad") =
        true) ∧
    (∃ m, reboot_via_dbus "/usr/bin/dbus-send" false (.completes 0 "" "") =
      [.reboot_failed m] ∧
      strContains "/usr/bin/dbus-send" m = true ∧
      strContains "Install dbus-send in the container (package: dbus)." m = true) := by
  have h := c8_reboot_failure_reporting.2.1 "/usr/bin/dbus-send" "boom" "bad" 1 (by decide)
  refine ⟨⟨by decide, h.1, ?_⟩,
    c8_reboot_failure_reporting.1 "/usr/bin/dbus-send" (.completes 0 "" "")⟩
  have h2 := h.2.2.2.2 (by decide)
  simpa using h2

/-- C10: `reboot_now` emits `reboot_started` first, unconditionally; hence
every `reboot_failed` in the emitted sequence is preceded by a
`reboot_started` — including when the helper binary is missing and no
process is ever launched. -/
theorem c10_reboot_started_precedes_failed :
    (∀ (path : String) (ex : Bool) (o : ProcOutcome),
      (reboot_now path ex o).head? = some .reboot_started) ∧
    (∀ (path : String) (ex : Bool) (o : ProcOutcome) (i : ℕ) (m : String),
      (reboot_now path ex o).get? i = some (.reboot_failed m) →
      ∃ j, j < i ∧ (reboot_now path ex o).get? j = some .reboot_started) ∧
    (∀ (path : String) (o : ProcOutcome), ∃ m,
      reboot_now path false o = [.reboot_started, .reboot_failed m]) := by
  refine ⟨fun path ex o => rfl, ?_, ?_⟩
  · intro path ex o i m hi
    cases i with
    | zero => simp [reboot_now] at hi
    | succ k => exact ⟨0, Nat.succ_pos k, rfl⟩
  · intro path o
    exact ⟨"Missing " ++ path ++ ". Install dbus-send in the container (package: dbus).",
      rfl⟩

theorem c10_reboot_started_precedes_failed_witness :
    ∃ j, j < 1 ∧
      (reboot_now "/usr/bin/dbus-send" false (.completes 0 "" "")).get? j =
        some .reboot_started :=
  c10_reboot_started_precedes_failed.2.1 "/usr/bin/dbus-send" false (.completes 0 "" "") 1
    ("Missing /usr/bin/dbus-send. Install dbus-send in the container (package: dbus).")
    (by rfl)

/-- C6: `process_line` on an arbitrary line: a line that strips to empty
yields no event; otherwise the recognisers run in the fixed order
download-complete (two substring formats), ostree object-transfer
percentage, `DownloadProgressReport` percentage, install-started,
need-reboot (NEED_COMPLETION), install-complete, rebooting, first match
winning; a matched percentage is emitted as `max 0 (min 100 ...)`
(clamped to [0,100]); and the modelled `int(...)`-with-handler `pyIntD0`
yields 0 on a numeric parse failure instead of discarding the line.  A
line yields at most one event by construction (`Option PyEvent`). -/
theorem c6_process_line_order (line : String) :
    (pyStrip line = "" → process_line line = none) ∧
    (pyStrip line ≠ "" → is_download_complete_line (pyStrip line) = true →
      process_line line = some (.phase "download_complete")) ∧
    (∀ ds, pyStrip line ≠ "" → is_download_complete_line (pyStrip line) = false →
      searchCap ostreeAt (pyStrip line).data = some ds →
      process_line line = some (.progress (max 0 (min 100 (pyIntD0 ds))))) ∧
    (∀ ds, pyStrip line ≠ "" → is_download_complete_line (pyStrip line) = false →
      searchCap ostreeAt (pyStrip line).data = none →
      searchCap progressAt (pyStrip line).data = some ds →
      process_line line = some (.progress (max 0 (min 100 (pyIntD0 ds))))) ∧
    (pyStrip line ≠ "" → is_download_complete_line (pyStrip line) = false →
      searchCap ostreeAt (pyStrip line).data = none →
      searchCap progressAt (pyStrip line).data = none →
      searchHit installStartedAt (pyStrip line).data = true →
      process_line line = some (.phase "install_started")) ∧
    (pyStrip line ≠ "" → is_download_complete_line (pyStrip line) = false →
      searchCap ostreeAt (pyStrip line).data = none →
      searchCap progressAt (pyStrip line).data = none →
      searchHit installStartedAt (pyStrip line).data = false →
      searchHit needRebootAt (pyStrip line).data = true →
      process_line line = some (.phase "need_reboot")) ∧
    (pyStrip line ≠ "" → is_download_complete_line (pyStrip line) = false →
      searchCap ostreeAt (pyStrip line).data = none →
      searchCap progressAt (pyStrip line).data = none →
      searchHit installStartedAt (pyStrip line).data = false →
      searchHit needRebootAt (pyStrip line).data = false →
      searchHit installCompleteAt (pyStrip line).data = true →
      process_line line = some (.phase "install_complete")) ∧
    (pyStrip line ≠ "" → is_download_complete_line (pyStrip line) = false →
      searchCap ostreeAt (pyStrip line).data = none →
      searchCap progressAt (pyStrip line).data = none →
      searchHit installStartedAt (pyStrip line).data = false →
      searchHit needRebootAt (pyStrip line).data = false →
      searchHit installCompleteAt (pyStrip line).data = false →
      strContains "About to reboot the system in order to apply pending updates"
        (pyStrip line) = true →
      process_line line = some (.phase "rebooting")) ∧
    (pyStrip line ≠ "" → is_download_complete_line (pyStrip line) = false →
      searchCap ostreeAt (pyStrip line).data = none →
      searchCap progressAt (pyStrip line).data = none →
      searchHit installStartedAt (pyStrip line).data = false →
      searchHit needRebootAt (pyStrip line).data = false →
      searchHit installCompleteAt (pyStrip line).data = false →
      strContains "About to reboot the system in order to apply pending updates"
        (pyStrip line) = false →
      process_line line = none) ∧
    (∀ ds : List Char, (ds.isEmpty || !ds.all Char.isDigit) = true → pyIntD0 ds = 0) := by
  refine ⟨?_, ?_, ?_, ?_, ?_, ?_, ?_, ?_, ?_, ?_⟩
  · intro h
    simp [process_line, h]
  · intro hne hdc
    simp [process_line, hne, hdc]
  · intro ds hne hdc hs
    simp [process_line, hne, hdc, hs]
  · intro ds hne hdc hs1 hs2
    simp [process_line, hne, hdc, hs1, hs2]
  · intro hne hdc hs1 hs2 hs3
    simp [process_line, hne, hdc, hs1, hs2, hs3]
  · intro hne hdc hs1 hs2 hs3 hs4
    simp [process_line, hne, hdc, hs1, hs2, hs3, hs4]
  · intro hne hdc hs1 hs2 hs3 hs4 hs5
    simp [process_line, hne, hdc, hs1, hs2, hs3, hs4, hs5]
  · intro hne hdc hs1 hs2 hs3 hs4 hs5 hs6
    simp [process_line, hne, hdc, hs1, hs2, hs3, hs4, hs5, hs6]
  · intro hne hdc hs1 hs2 hs3 hs4 hs5 hs6
    simp [process_line, hne, hdc, hs1, hs2, hs3, hs4, hs5, hs6]
  · intro ds h
    cases hE : ds.isEmpty <;> cases hA : ds.all Char.isDigit <;>
      (simp [pyIntD0, hE, hA]
       try simp [hE, hA] at h)

theorem c6_process_line_order_witness :
    process_line "Event: AllInstallsComplete, Result - NEED_COMPLETION" =
      some (.phase "need_reboot") :=
  (c6_process_line_order "Event: AllInstallsComplete, Result - NEED_COMPLETION").2.2.2.2.2.1
    (by decide) (by rfl) (by rfl) (by rfl) (by rfl) (by rfl)

/-! ## Well-formedness of consent payloads (C7, C4) -/

/-- Is a JSON value an object? -/
def JsonVal.isObjVal : JsonVal → Bool
  | .obj _ => true
  | _ => false

/-- One `targets` entry that `parse_consent_required` processes without
raising: the entry value is an object and its `custom` member, when
present and truthy, is an object. -/
def targetEntryWF : String × JsonVal → Bool
  | (_, .obj tkvs) =>
    match objGet tkvs "custom" with
    | none => true
    | some c => !(jsonTruthy c) || c.isObjVal
  | _ => false

/-- A parsed payload that `parse_consent_required` processes without
raising: an object whose `targets` member, when present, is an object all
of whose entries are well-formed. -/
def consentWF : JsonVal → Bool
  | .obj kvs =>
    match objGet kvs "targets" with
    | none => true
    | some (.obj ts) => ts.all targetEntryWF
    | some _ => false
  | _ => false

theorem build_target_total (tid : String) (tkvs : List (String × JsonVal))
    (h : targetEntryWF (tid, .obj tkvs) = true) :
    ∃ u, build_target tid tkvs = .ok u := by
  simp only [build_target]
  by_cases ht : jsonTruthy ((objGet tkvs "custom").getD (.obj [])) = true
  · rw [if_pos ht]
    rcases hc : objGet tkvs "custom" with _ | c
    · rw [hc] at ht
      simp [jsonTruthy] at ht
    · rw [hc] at ht
      simp only [Option.getD] at ht ⊢
      simp only [targetEntryWF, hc] at h
      cases c <;> simp_all [JsonVal.isObjVal, jsonTruthy]
  · rw [if_neg ht]
    exact ⟨_, rfl⟩

theorem processTargets_total (ts : List (String × JsonVal))
    (h : ts.all targetEntryWF = true) : ∃ l, processTargets ts = .ok l := by
  induction ts with
  | nil => exact ⟨[], rfl⟩
  | cons hd rest ih =>
    obtain ⟨tid, tv⟩ := hd
    simp only [List.all_cons, Bool.and_eq_true] at h
    obtain ⟨h1, h2⟩ := h
    obtain ⟨l, hl⟩ := ih h2
    cases tv with
    | obj tkvs =>
      obtain ⟨u, hu⟩ := build_target_total tid tkvs h1
      exact ⟨u :: l, by simp [processTargets, hu, hl]⟩
    | null => simp [targetEntryWF] at h1
    | bool b => simp [targetEntryWF] at h1
    | num q => simp [targetEntryWF] at h1
    | str s2 => simp [targetEntryWF] at h1
    | arr xs => simp [targetEntryWF] at h1

/-- C7 counterexample: `parse_consent_required` raises (here: the
`json.JSONDecodeError` of `json.loads`) on the empty payload string — it
does not return a list for every input payload string. -/
theorem c7_counterexample_empty_payload_raises :
    parse_consent_required "" = .error .jsonDecodeError := by rfl

/-- C7 (amended): numeric parse failure on a matched log-line percentage
degrades to 0 instead of discarding the line, and `parse_consent_required`
returns a (possibly empty) list of `UpdateTarget`s — rather than raising —
for every payload string whose JSON is an object with a well-formed
`targets` mapping; for other payload strings (e.g. the empty string) the
raised exception propagates. -/
theorem c7_graceful_degradation :
    (∀ ds : List Char, (ds.isEmpty || !ds.all Char.isDigit) = true → pyIntD0 ds = 0) ∧
    (∀ (raw : String) (v : JsonVal), json_loads raw = .ok v → consentWF v = true →
      ∃ l, parse_consent_required raw = .ok l) := by
  constructor
  · intro ds h
    cases hE : ds.isEmpty <;> cases hA : ds.all Char.isDigit <;>
      (simp [pyIntD0, hE, hA]
       try simp [hE, hA] at h)
  · intro raw v hload hwf
    cases v with
    | obj kvs =>
      simp only [parse_consent_required, hload]
      simp only [consentWF] at hwf
      rcases ht : objGet kvs "targets" with _ | tv
      · exact ⟨[], by simp [ht, Option.getD, processTargets]⟩
      · rw [ht] at hwf
        cases tv with
        | obj ts =>
          obtain ⟨l, hl⟩ := processTargets_total ts (by simpa using hwf)
          exact ⟨l, by simp [ht, Option.getD, hl]⟩
        | null => simp at hwf
        | bool b => simp at hwf
        | num q => simp at hwf
        | str s2 => simp at hwf
        | arr xs => simp at hwf
    | null => simp [consentWF] at hwf
    | bool b => simp [consentWF] at hwf
    | num q => simp [consentWF] at hwf
    | str s2 => simp [consentWF] at hwf
    | arr xs => simp [consentWF] at hwf

theorem c7_graceful_degradation_witness :
    json_loads "\x7b\x7d" = .ok (.obj []) ∧ consentWF (.obj []) = true ∧
    ∃ l, parse_consent_required "\x7b\x7d" = .ok l :=
  ⟨by rfl, by rfl, c7_graceful_degradation.2 "\x7b\x7d" (.obj []) (by rfl) (by rfl)⟩

/-! ## Consent modal policy (C4) -/

/-- A state in which a manual check is active (the only field of
`initState` that `on_check_clicked` needs to have set for the consent
handler's manual branch). -/
def c4_state : UI := { initState with manual_check_active := true }

/-- C4 counterexample: a consent-required notification whose payload
parses to an empty `targets` mapping arrives during an active manual
check, yet no modal decision dialog is opened (the command list is empty);
only the manual-check flag is cleared.  This refutes "always opens the
modal decision, exactly once per check". -/
theorem c4_counterexample_empty_targets_no_modal :
    c4_state.manual_check_active = true ∧
    (on_consent_required c4_state "\x7b\"targets\": \x7b\x7d\x7d" true).map
      (fun r => (r.2, r.1.manual_check_active)) = .ok ([], false) :=
  ⟨rfl, by rfl⟩

/-- C4 (amended): a consent-required notification arriving while no manual
check is active never opens the modal decision (no commands are issued,
only passive labels change); one arriving during an active manual check
opens the modal (exactly one `show_consent_modal` command) precisely when
the payload parses to at least one target, and in every normally-returning
case the manual-check flag is cleared before the handler returns. -/
theorem c4_consent_modal_policy :
    (∀ (s : UI) (raw : String) (yes : Bool), s.manual_check_active = false →
      ∃ s2, on_consent_required s raw yes = .ok (s2, []) ∧
        s2.manual_check_active = false) ∧
    (∀ (s : UI) (raw : String) (yes : Bool), s.manual_check_active = true →
      parse_consent_required raw = .ok [] →
      ∃ s2, on_consent_required s raw yes = .ok (s2, []) ∧
        s2.manual_check_active = false) ∧
    (∀ (s : UI) (raw : String) (yes : Bool) (t : UpdateTarget) (ts : List UpdateTarget),
      s.manual_check_active = true → parse_consent_required raw = .ok (t :: ts) →
      ∃ s2, on_consent_required s raw yes =
          .ok (s2, [.show_consent_modal (consent_msg t),
                    .send_consent yes (if yes then "Accepted via UI" else "Refused via UI")]) ∧
        s2.manual_check_active = false) := by
  refine ⟨?_, ?_, ?_⟩
  · intro s raw yes h
    cases hc : s.check_timeout_active <;>
      · simp only [on_consent_required, hc, Bool.false_eq_true, Bool.true_eq_false,
          if_true, if_false, eq_self_iff_true, h, reduceIte]
        exact ⟨_, rfl, rfl⟩
  · intro s raw yes h hp
    cases hc : s.check_timeout_active <;>
      · simp only [on_consent_required, hc, Bool.false_eq_true, Bool.true_eq_false,
          if_true, if_false, eq_self_iff_true, h, hp, reduceIte]
        exact ⟨_, rfl, rfl⟩
  · intro s raw yes t ts h hp
    cases hc : s.check_timeout_active <;>
      cases yes <;>
        · simp only [on_consent_required, hc, Bool.false_eq_true, Bool.true_eq_false,
            if_true, if_false, eq_self_iff_true, h, hp, reduceIte]
          exact ⟨_, rfl, rfl⟩

/-- The concrete one-target consent payload used as the C4 witness. -/
def c4_payload : String :=
  "\x7b\"targets\": \x7b\"app1\": \x7b\"custom\": \x7b\"name\": \"MyApp\", \"version\": \"2\"\x7d\x7d\x7d\x7d"

/-- The `UpdateTarget` that `parse_consent_required` extracts from
`c4_payload`. -/
def c4_target : UpdateTarget :=
  ⟨"app1", .str "MyApp", "2", .str "", .num 0, .str "", "os"⟩

theorem c4_consent_modal_policy_witness :
    c4_state.manual_check_active = true ∧
    parse_consent_required c4_payload = .ok [c4_target] ∧
    ∃ s2, on_consent_required c4_state c4_payload true =
        .ok (s2, [.show_consent_modal (consent_msg c4_target),
                  .send_consent true "Accepted via UI"]) ∧
      s2.manual_check_active = false :=
  ⟨rfl, by rfl,
    c4_consent_modal_policy.2.2 c4_state c4_payload true c4_target [] rfl (by rfl)⟩

end Sup
